import Mathlib

/-!
Verification of the complybeacon evidence-enrichment core: the compass
catalog-driven metadata resolver (`compass/mapper/plugins/basic`), the
compass batch/enrich service handlers (`compass/service`), and the
truthbeam cache-and-prefetch client (`truthbeam/internal/client`).

Go maps are modelled as association lists (iteration in list order; the
spec leaves Go map iteration order unspecified, so the list order stands
for one admissible iteration order) or as overwrite-folded lookup
functions (last insertion wins, matching Go map writes).  Pointers that
may be nil are modelled with `Option`.  Fallible calls return `Except`.
-/

set_option autoImplicit false

namespace ComplyBeacon

/-! ## Generated API enum values

Modelled from the spec: the generated `api`/`client` OpenAPI code (not
present under `src/`) defines the evidence evaluation-outcome enum as a
string type with the five values below; the concrete strings only need
to be pairwise distinct for the properties proved here. -/

namespace Gen

/-- Modelled from the spec: evaluation outcome `Passed`. -/
def Passed : String := "Passed"

/-- Modelled from the spec: evaluation outcome `Failed`. -/
def Failed : String := "Failed"

/-- Modelled from the spec: evaluation outcome `NotRun`. -/
def NotRun : String := "NotRun"

/-- Modelled from the spec: evaluation outcome `NotApplicable`. -/
def NotApplicable : String := "NotApplicable"

/-- Modelled from the spec: evaluation outcome `Unknown`. -/
def UnknownOutcome : String := "Unknown"

end Gen

namespace Compass

/-! ## gemara layer4 assessment-plan model (fields used by the mapper) -/

/-- `layer4.AssessmentProcedure`: `Id` and `Documentation`. -/
structure AssessmentProcedure where
  id : String
  documentation : String
deriving DecidableEq

/-- `layer4.Mapping`: `EntryId` and `ReferenceId`. -/
structure PlanMapping where
  entryId : String
  referenceId : String
deriving DecidableEq

/-- `layer4.Assessment`: `Requirement` and `Procedures`. -/
structure Assessment where
  requirement : PlanMapping
  procedures : List AssessmentProcedure
deriving DecidableEq

/-- `layer4.AssessmentPlan`: `Control` and `Assessments`. -/
structure AssessmentPlan where
  control : PlanMapping
  assessments : List Assessment
deriving DecidableEq

/-! ## gemara layer2 catalog model (fields used by the mapper) -/

/-- `layer2.MappingEntry`: `ReferenceId`. -/
structure MappingEntry where
  referenceId : String
deriving DecidableEq

/-- `layer2.Mapping`: `ReferenceId` and `Entries`. -/
structure Mapping where
  referenceId : String
  entries : List MappingEntry
deriving DecidableEq

/-- `layer2.Control`: `Id` and `GuidelineMappings`. -/
structure Control where
  id : String
  guidelineMappings : List Mapping
deriving DecidableEq

/-- `layer2.ControlFamily`: `Title` and `Controls`. -/
structure ControlFamily where
  title : String
  controls : List Control
deriving DecidableEq

/-- `layer2.Catalog`: `Metadata.Id` and `ControlFamilies`. -/
structure Catalog where
  id : String
  controlFamilies : List ControlFamily
deriving DecidableEq

/-- `mapper.Scope = map[string]layer2.Catalog`, as an association list. -/
abbrev Scope := List (String × Catalog)

/-- Go map read `scope[catalogId]`. -/
def scopeFind (scope : Scope) (catalogId : String) : Option Catalog :=
  (List.find? (fun p => p.1 == catalogId) scope).map (fun p => p.2)

/-! ## compass `api` result types (shapes taken from their uses in src) -/

/-- `api.ComplianceMetadataEnrichmentStatus` (`success` / `unmapped`). -/
inductive EnrichmentStatus where
  | success
  | unmapped
deriving DecidableEq

/-- `api.ComplianceControl`. -/
structure ComplianceControl where
  id : String
  category : String
  remediationDescription : Option String
  catalogId : String
deriving DecidableEq

/-- `api.ComplianceFrameworks`. -/
structure ComplianceFrameworks where
  requirements : List String
  frameworks : List String
deriving DecidableEq

/-- `api.ComplianceMetadata`: control, frameworks, and an optional risk
block (never set by the basic mapper, copied through by the service). -/
structure ComplianceMetadata where
  control : ComplianceControl
  frameworks : ComplianceFrameworks
  risk : Option String
deriving DecidableEq

/-- `api.ComplianceStatus` values used by `mapDecision`. -/
inductive ComplianceStatus where
  | COMPLIANT
  | NONCOMPLIANT
  | NOTAPPLICABLE
  | UNKNOWN
deriving DecidableEq

/-- `api.Evidence` (fields used by the mapper and the service). -/
structure Evidence where
  policyEngineName : String
  policyRuleId : String
  policyEvaluationStatus : String
  timestamp : Nat
deriving DecidableEq

/-! ## basic mapper (`compass/mapper/plugins/basic`) -/

/-- `basic.ProcedureInfo`. -/
structure ProcedureInfo where
  controlID : String
  requirementID : String
  documentation : String
deriving DecidableEq

/-- `basic.ControlData`. -/
structure ControlData where
  mappings : List Mapping
  category : String
deriving DecidableEq

/-- `Mapper.buildProceduresMap`: flattens the plans into a Go map
`procedureId -> ProcedureInfo`; a later insertion overwrites an earlier
one, which the function-override fold reproduces. -/
def buildProceduresMap (plans : List AssessmentPlan) : String → Option ProcedureInfo :=
  plans.foldl
    (fun acc plan =>
      plan.assessments.foldl
        (fun acc2 requirement =>
          requirement.procedures.foldl
            (fun acc3 procedure => fun k =>
              if k = procedure.id then
                some { controlID := plan.control.entryId
                       requirementID := requirement.requirement.entryId
                       documentation := procedure.documentation }
              else acc3 k)
            acc2)
        acc)
    (fun _ => none)

/-- `Mapper.buildControlDataMap`: flattens the catalog into a Go map
`controlId -> ControlData` (later insertions overwrite earlier ones). -/
def buildControlDataMap (catalog : Catalog) : String → Option ControlData :=
  catalog.controlFamilies.foldl
    (fun acc family =>
      family.controls.foldl
        (fun acc2 control => fun k =>
          if k = control.id then
            some { mappings := control.guidelineMappings, category := family.title }
          else acc2 k)
        acc)
    (fun _ => none)

/-- `Mapper.extractRequirements`: appends every entry's `ReferenceId`
of every mapping, in encounter order. -/
def extractRequirements (mappings : List Mapping) : List String :=
  mappings.foldl
    (fun acc mapping =>
      mapping.entries.foldl (fun acc2 entry => acc2 ++ [entry.referenceId]) acc)
    []

/-- `Mapper.extractStandards`: appends every mapping's `ReferenceId`,
in encounter order. -/
def extractStandards (mappings : List Mapping) : List String :=
  mappings.foldl (fun acc mapping => acc ++ [mapping.referenceId]) []

/-- The metadata built by `Mapper.GetMetadata` on a successful lookup. -/
def successMetadata (catalogId : String) (info : ProcedureInfo) (d : ControlData) :
    ComplianceMetadata :=
  { control :=
      { id := info.requirementID
        category := d.category
        remediationDescription := some info.documentation
        catalogId := catalogId }
    frameworks :=
      { requirements := extractRequirements d.mappings
        frameworks := extractStandards d.mappings }
    risk := none }

/-- The fallback metadata returned by `Mapper.GetMetadata` when no
catalog yields a match. -/
def fallbackMetadata (policyRuleId : String) : ComplianceMetadata :=
  { control :=
      { id := policyRuleId
        category := "Unknown"
        remediationDescription := none
        catalogId := "unknown" }
    frameworks := { requirements := [], frameworks := [] }
    risk := none }

/-- `Mapper.GetMetadata`: walks the registered plans (a Go map,
modelled as an association list of `catalogId` to plans), skipping
catalogs absent from the scope, and returns the first catalog whose
procedure index contains the rule and whose control index contains the
procedure's control; otherwise falls back to the unmapped default.
Failure reasons are log-only and are not modelled. -/
def getMetadata (plans : List (String × List AssessmentPlan)) (scope : Scope)
    (policyRuleId : String) : ComplianceMetadata × EnrichmentStatus :=
  match plans with
  | [] => (fallbackMetadata policyRuleId, EnrichmentStatus.unmapped)
  | (catalogId, catalogPlans) :: rest =>
    match scopeFind scope catalogId with
    | none => getMetadata rest scope policyRuleId
    | some catalog =>
      match buildProceduresMap catalogPlans policyRuleId with
      | none => getMetadata rest scope policyRuleId
      | some info =>
        match buildControlDataMap catalog info.controlID with
        | none => getMetadata rest scope policyRuleId
        | some d => (successMetadata catalogId info d, EnrichmentStatus.success)

/-- `Mapper.mapDecision`: the status-calculation rule. -/
def mapDecision (status : String) : ComplianceStatus :=
  if status = Gen.Passed then ComplianceStatus.COMPLIANT
  else if status = Gen.Failed then ComplianceStatus.NONCOMPLIANT
  else if status = Gen.NotRun ∨ status = Gen.NotApplicable then ComplianceStatus.NOTAPPLICABLE
  else ComplianceStatus.UNKNOWN

/-- `Mapper.CalculateStatus`. -/
def CalculateStatus (evidence : Evidence) : ComplianceStatus :=
  mapDecision evidence.policyEvaluationStatus

/-! ### Specification-side helpers for the resolver claims -/

/-- Whether one registered catalog fully matches a rule: it is in scope,
its procedure index contains the rule, and its control index contains
the procedure's control.  Returns the data the hit is built from. -/
def fullMatch (scope : Scope) (policyRuleId : String)
    (entry : String × List AssessmentPlan) :
    Option (String × ProcedureInfo × ControlData) :=
  match scopeFind scope entry.1 with
  | none => none
  | some catalog =>
    match buildProceduresMap entry.2 policyRuleId with
    | none => none
    | some info =>
      match buildControlDataMap catalog info.controlID with
      | none => none
      | some d => some (entry.1, info, d)

/-- The first registered catalog (in encounter order) that fully
matches the rule, if any. -/
def firstFullMatch (plans : List (String × List AssessmentPlan)) (scope : Scope)
    (policyRuleId : String) : Option (String × ProcedureInfo × ControlData) :=
  match plans with
  | [] => none
  | entry :: rest =>
    match fullMatch scope policyRuleId entry with
    | some r => some r
    | none => firstFullMatch rest scope policyRuleId

/-! ## compass service (`src/unnamed/part_003`, package `service`) -/

/-- The `mapper.Mapper` interface, restricted to the two methods the
service handlers call (`GetMetadata`, `CalculateStatus`). -/
structure MapperI where
  getMetadata : String → Scope → ComplianceMetadata × EnrichmentStatus
  calculateStatus : Evidence → ComplianceStatus

/-- The basic mapper as a `mapper.Mapper` value, with its registered
plans. -/
def basicMapperI (plans : List (String × List AssessmentPlan)) : MapperI :=
  { getMetadata := fun policyRuleId scope => getMetadata plans scope policyRuleId
    calculateStatus := CalculateStatus }

/-- `basic.NewBasicMapper()`: a fresh basic mapper with no plans. -/
def newBasicMapper : MapperI := basicMapperI []

/-- `mapper.Set = map[ID]Mapper`, as an association list. -/
abbrev MapperSet := List (String × MapperI)

/-- Go map read `set[id]`. -/
def setFind (set : MapperSet) (id : String) : Option MapperI :=
  (List.find? (fun p => p.1 == id) set).map (fun p => p.2)

/-- `api.Error`. -/
structure ApiError where
  code : Int
  message : String
deriving DecidableEq

/-- `api.BatchMetadataResult` (fields the handler sets). -/
structure BatchMetadataResult where
  index : Nat
  policyRuleId : String
  metadata : Option ComplianceMetadata
deriving DecidableEq

/-- `api.BatchSummary`. -/
structure BatchSummary where
  total : Nat
  success : Nat
  failed : Nat
deriving DecidableEq

/-- `api.BatchMetadataResponse`. -/
structure BatchMetadataResponse where
  results : List BatchMetadataResult
  summary : BatchSummary
deriving DecidableEq

/-- One iteration of the `PostV1MetadataBatch` loop body: build the
per-item result (original index, rule id, the plugin's metadata) and
bump `successCount`. -/
def batchStep (mapperPlugin : MapperI) (scope : Scope)
    (acc : List BatchMetadataResult × Nat) (entry : Nat × String) :
    List BatchMetadataResult × Nat :=
  (acc.1 ++
      [{ index := entry.1
         policyRuleId := entry.2
         metadata := some (mapperPlugin.getMetadata entry.2 scope).1 }],
    acc.2 + 1)

/-- `Service.PostV1MetadataBatch` (request already decoded): rejects an
empty id list, selects the plugin registered under `"basic"` (falling
back to a fresh basic mapper), resolves every id, and reports
`total`/`success`/`failed = total - success`. -/
def postV1MetadataBatch (set : MapperSet) (scope : Scope)
    (policyRuleIds : List String) : Except ApiError BatchMetadataResponse :=
  if policyRuleIds.length = 0 then
    Except.error { code := 400, message := "At least one policy rule ID is required" }
  else
    let mapperPlugin := (setFind set "basic").getD newBasicMapper
    let built := policyRuleIds.enum.foldl (batchStep mapperPlugin scope) ([], 0)
    Except.ok
      { results := built.1
        summary :=
          { total := policyRuleIds.length
            success := built.2
            failed := policyRuleIds.length - built.2 } }

/-- `api.Compliance` (the enrich response body; `Status` is a pointer
to the freshly calculated status, always set by `enrich`). -/
structure Compliance where
  control : ComplianceControl
  frameworks : ComplianceFrameworks
  risk : Option String
  status : ComplianceStatus
  enrichmentStatus : EnrichmentStatus
deriving DecidableEq

/-- The service-level `enrich` helper: combine the mapper's static
metadata with the freshly calculated status. -/
def enrich (rawEnv : Evidence) (attributeMapper : MapperI) (scope : Scope) : Compliance :=
  let md := attributeMapper.getMetadata rawEnv.policyRuleId scope
  { control := md.1.control
    frameworks := md.1.frameworks
    risk := md.1.risk
    status := attributeMapper.calculateStatus rawEnv
    enrichmentStatus := md.2 }

/-- `Service.PostV1Enrich` (request already decoded): selects the
plugin registered under the evidence's engine name, falling back to a
fresh basic mapper, then enriches. -/
def postV1Enrich (set : MapperSet) (scope : Scope) (evidence : Evidence) : Compliance :=
  let mapperPlugin := (setFind set evidence.policyEngineName).getD newBasicMapper
  enrich evidence mapperPlugin scope

end Compass

namespace Beacon

/-! ## truthbeam client (`truthbeam/internal/client/cacheable.go`)

The generated `client` types mirror the compass API schemas, so the
control / frameworks / status shapes are reused from `Compass`. -/

/-- `client.ComplianceMetadata` (carries its own enrichment status,
which `Retrieve` copies into the combined response). -/
structure ComplianceMetadata where
  control : Compass.ComplianceControl
  frameworks : Compass.ComplianceFrameworks
  risk : Option String
  enrichmentStatus : Compass.EnrichmentStatus
deriving DecidableEq

/-- `client.Compliance`. -/
structure Compliance where
  control : Compass.ComplianceControl
  frameworks : Compass.ComplianceFrameworks
  risk : Option String
  status : Option Compass.ComplianceStatus
  enrichmentStatus : Compass.EnrichmentStatus
deriving DecidableEq

/-- `client.EnrichmentResponse`. -/
structure EnrichmentResponse where
  compliance : Compliance
deriving DecidableEq

/-- `client.Evidence` (fields used by the cacheable client). -/
structure Evidence where
  policyEngineName : String
  policyRuleId : String
  policyEvaluationStatus : String
  timestamp : Nat
deriving DecidableEq

/-- `client.Error` carried by a per-item batch result. -/
structure ErrorInfo where
  message : String
deriving DecidableEq

/-- `client.BatchMetadataResult` as consumed by the cacheable client:
per-item rule id, optional metadata (nil-able pointer) and optional
per-item error. -/
structure BatchMetadataResult where
  policyRuleId : String
  metadata : Option ComplianceMetadata
  error : Option ErrorInfo
deriving DecidableEq

/-- `client.BatchMetadataResponse`. -/
structure BatchMetadataResponse where
  results : List BatchMetadataResult
deriving DecidableEq

/-- The in-process metadata cache (`go-cache` with no expiration),
modelled as an association list keyed by rule id. -/
abbrev Cache := List (String × ComplianceMetadata)

/-- `cache.Get`. -/
def cacheGet (c : Cache) (k : String) : Option ComplianceMetadata :=
  (List.find? (fun p => p.1 == k) c).map (fun p => p.2)

/-- `cache.Set` (overwrite semantics). -/
def cacheSet (c : Cache) (k : String) (v : ComplianceMetadata) : Cache :=
  (k, v) :: List.filter (fun p => p.1 != k) c

/-- The remote batch-metadata endpoint (`callBatchMetadata`), as an
oracle from the requested id list to a transport error or a parsed
response.  Quantifying theorems over the oracle covers every remote
behaviour. -/
abbrev Remote := List String → Except String BatchMetadataResponse

/-- `CacheableClient.calculateStatus`: the local status recomputation.
Note the source has no `NotRun` case. -/
def calculateStatus (evidence : Evidence) : Compass.ComplianceStatus :=
  if evidence.policyEvaluationStatus = Gen.Passed then Compass.ComplianceStatus.COMPLIANT
  else if evidence.policyEvaluationStatus = Gen.Failed then Compass.ComplianceStatus.NONCOMPLIANT
  else if evidence.policyEvaluationStatus = Gen.NotApplicable then
    Compass.ComplianceStatus.NOTAPPLICABLE
  else Compass.ComplianceStatus.UNKNOWN

/-- `CacheableClient.fetchMetadata`: single-item fetch through the
batch endpoint; fails on transport error, empty result list, per-item
error, or nil metadata. -/
def fetchMetadata (remote : Remote) (policyRuleId : String) :
    Except String ComplianceMetadata :=
  match remote [policyRuleId] with
  | Except.error e => Except.error ("failed to call batch metadata API: " ++ e)
  | Except.ok resp =>
    match resp.results with
    | [] => Except.error ("no metadata returned for policy rule " ++ policyRuleId)
    | result :: _ =>
      match result.error with
      | some err =>
        Except.error
          ("error fetching metadata for policy rule " ++ policyRuleId ++ ": " ++ err.message)
      | none =>
        match result.metadata with
        | none => Except.error ("no metadata found for policy rule " ++ policyRuleId)
        | some metadata => Except.ok metadata

/-- Combination step inside `Retrieve`: cached/fetched metadata plus
the locally calculated status. -/
def combine (metadata : ComplianceMetadata) (status : Compass.ComplianceStatus) : Compliance :=
  { control := metadata.control
    frameworks := metadata.frameworks
    risk := metadata.risk
    status := some status
    enrichmentStatus := metadata.enrichmentStatus }

/-- Result of one `Retrieve` call: the response or error, the cache
afterwards, and how many remote calls were made (instrumentation for
the cache-hit claims). -/
structure RetrieveOut where
  result : Except String EnrichmentResponse
  cache : Cache
  remoteCalls : Nat

/-- `CacheableClient.Retrieve`: cache hit skips the remote fetch; on a
miss the single-item fetch either fails (error surfaced, cache
untouched) or its result is stored; the status is always recomputed
locally and combined. -/
def retrieve (remote : Remote) (cache : Cache) (evidence : Evidence) : RetrieveOut :=
  match cacheGet cache evidence.policyRuleId with
  | some metadata =>
    { result := Except.ok { compliance := combine metadata (calculateStatus evidence) }
      cache := cache
      remoteCalls := 0 }
  | none =>
    match fetchMetadata remote evidence.policyRuleId with
    | Except.error e =>
      { result := Except.error ("failed to fetch metadata: " ++ e)
        cache := cache
        remoteCalls := 1 }
    | Except.ok metadata =>
      { result := Except.ok { compliance := combine metadata (calculateStatus evidence) }
        cache := cacheSet cache evidence.policyRuleId metadata
        remoteCalls := 1 }

/-- The caching step of `prefetchBatch`'s result loop: write a per-item
result only when it carries no error and non-nil metadata. -/
def cacheWriteStep (c : Cache) (result : BatchMetadataResult) : Cache :=
  match result.error, result.metadata with
  | none, some metadata => cacheSet c result.policyRuleId metadata
  | _, _ => c

/-- `CacheableClient.prefetchBatch`: one remote batch call; on success
only per-item results with no error and non-nil metadata are written
into the cache. -/
def prefetchBatch (remote : Remote) (cache : Cache) (policyRuleIds : List String) :
    Option String × Cache :=
  match remote policyRuleIds with
  | Except.error e => (some ("failed to call batch metadata API: " ++ e), cache)
  | Except.ok resp => (none, resp.results.foldl cacheWriteStep cache)

/-- The id-deduplication loop of `Prefetch` (`seen` map as a list). -/
def dedupIds (evidenceList : List Evidence) (seen : List String) : List String :=
  match evidenceList with
  | [] => []
  | evidence :: rest =>
    if evidence.policyRuleId ∈ seen then dedupIds rest seen
    else evidence.policyRuleId :: dedupIds rest (evidence.policyRuleId :: seen)

/-- The chunking loop of `Prefetch`: consecutive slices of at most `n`
ids (`n = 50` in the source). -/
def chunksOf (n : Nat) (l : List String) : List (List String) :=
  match l with
  | [] => []
  | x :: xs => (x :: xs.take (n - 1)) :: chunksOf n (xs.drop (n - 1))
termination_by l.length
decreasing_by
  simp only [List.length_drop, List.length_cons]
  omega

/-- Result of one `Prefetch` call: the returned error (always `none` in
the source), the cache afterwards, and the batches handed to the remote
endpoint, in order (instrumentation for the prefetch claims). -/
structure PrefetchOut where
  err : Option String
  cache : Cache
  sent : List (List String)

/-- One iteration of the `Prefetch` batch loop: call `prefetchBatch`,
log-and-drop its error, record the batch as sent. -/
def prefetchStep (remote : Remote) (acc : Cache × List (List String))
    (batch : List String) : Cache × List (List String) :=
  ((prefetchBatch remote acc.1 batch).2, acc.2 ++ [batch])

/-- `CacheableClient.Prefetch`: deduplicate ids, return success at once
when none remain, otherwise send consecutive batches of at most 50 ids,
skipping failed batches, and return success. -/
def prefetch (remote : Remote) (cache : Cache) (evidenceList : List Evidence) : PrefetchOut :=
  let policyRuleIds := dedupIds evidenceList []
  if policyRuleIds.isEmpty then { err := none, cache := cache, sent := [] }
  else
    let final := (chunksOf 50 policyRuleIds).foldl (prefetchStep remote) (cache, [])
    { err := none, cache := final.1, sent := final.2 }

/-! ### Specification-side helper for the deduplication claim -/

/-- Canonical first-occurrence deduplication: keep each id at its first
position, drop later repeats. -/
def firstOccurrences (l : List String) : List String :=
  match l with
  | [] => []
  | x :: xs => x :: firstOccurrences (xs.filter (fun y => decide ¬(y = x)))
termination_by l.length
decreasing_by
  simp only [List.length_cons]
  exact Nat.lt_succ_of_le (List.length_filter_le _ _)

end Beacon

/-! ## Concrete inputs used by the witnesses -/

/-- The assessment plan of the spec's scenario: procedure `AC-1` under
control `AC`, requirement `AC-1-REQ`. -/
def planEx : Compass.AssessmentPlan :=
  { control := { entryId := "AC", referenceId := "cat-A" }
    assessments :=
      [{ requirement := { entryId := "AC-1-REQ", referenceId := "cat-A" }
         procedures := [{ id := "AC-1", documentation := "Test procedure" }] }] }

/-- Plans registered for catalog `cat-A`. -/
def plansEx : List (String × List Compass.AssessmentPlan) := [("cat-A", [planEx])]

/-- The catalog of the spec's scenario: control `AC` in family
`Access Control`, mapped to `NIST-800-53` entry `AC-1`. -/
def catalogEx : Compass.Catalog :=
  { id := "cat-A"
    controlFamilies :=
      [{ title := "Access Control"
         controls :=
           [{ id := "AC"
              guidelineMappings :=
                [{ referenceId := "NIST-800-53"
                   entries := [{ referenceId := "AC-1" }] }] }] }] }

/-- Scope containing `cat-A`. -/
def scopeEx : Compass.Scope := [("cat-A", catalogEx)]

/-- The procedure-index entry the scenario resolves to. -/
def infoEx : Compass.ProcedureInfo :=
  { controlID := "AC", requirementID := "AC-1-REQ", documentation := "Test procedure" }

/-- The control-index entry the scenario resolves to. -/
def dataEx : Compass.ControlData :=
  { mappings := [{ referenceId := "NIST-800-53", entries := [{ referenceId := "AC-1" }] }]
    category := "Access Control" }

/-- Compass evidence with outcome `Passed` for the scenario rule. -/
def evidenceEx : Compass.Evidence :=
  { policyEngineName := "test-policy-engine"
    policyRuleId := "AC-1"
    policyEvaluationStatus := Gen.Passed
    timestamp := 0 }

/-- A truthbeam evidence record for a given rule id (outcome `Passed`). -/
def mkBeaconEvidence (policyRuleId : String) : Beacon.Evidence :=
  { policyEngineName := "test-policy-engine"
    policyRuleId := policyRuleId
    policyEvaluationStatus := Gen.Passed
    timestamp := 0 }

/-- Client-side metadata a healthy remote returns. -/
def beaconMetadataEx : Beacon.ComplianceMetadata :=
  { control :=
      { id := "AC-1-REQ"
        category := "Access Control"
        remediationDescription := some "Test procedure"
        catalogId := "cat-A" }
    frameworks := { requirements := ["AC-1"], frameworks := ["NIST-800-53"] }
    risk := none
    enrichmentStatus := Compass.EnrichmentStatus.success }

/-- A healthy remote: every requested id resolves to `beaconMetadataEx`. -/
def remoteOkEx : Beacon.Remote := fun ids =>
  Except.ok
    { results := ids.map (fun i => { policyRuleId := i, metadata := some beaconMetadataEx, error := none }) }

/-- A remote whose transport always fails. -/
def remoteFailEx : Beacon.Remote := fun _ => Except.error "connection refused"

/-- A remote whose batches succeed but whose every per-item result is
an error entry with nil metadata. -/
def remoteItemErrEx : Beacon.Remote := fun ids =>
  Except.ok
    { results := ids.map (fun i => { policyRuleId := i, metadata := none, error := some { message := "boom" } }) }

/-- An evidence list with a duplicated rule id (for the prefetch
deduplication witness). -/
def beaconEvListEx : List Beacon.Evidence :=
  [mkBeaconEvidence "r1", mkBeaconEvidence "r2", mkBeaconEvidence "r1"]

/-- Truthbeam evidence whose evaluation outcome is `NotRun`. -/
def beaconNotRunEvidence : Beacon.Evidence :=
  { policyEngineName := "test-policy-engine"
    policyRuleId := "AC-1"
    policyEvaluationStatus := Gen.NotRun
    timestamp := 0 }

/-- A cache already holding metadata for the scenario rule. -/
def cacheEx : Beacon.Cache := [("AC-1", beaconMetadataEx)]

/-- The enrichment response of the first (cold) retrieve of the C4
witness. -/
def respEx : Beacon.EnrichmentResponse :=
  { compliance := Beacon.combine beaconMetadataEx Compass.ComplianceStatus.COMPLIANT }

/-- A mapper set registering the basic mapper (with the scenario plans)
under `"basic"`. -/
def setEx : Compass.MapperSet := [("basic", Compass.basicMapperI plansEx)]

/-- A distinguishable non-basic mapper implementation, registered under
an engine name in the dispatch witness. -/
def customMapperEx : Compass.MapperI :=
  { getMetadata := fun policyRuleId _ =>
      (Compass.fallbackMetadata ("custom-" ++ policyRuleId), Compass.EnrichmentStatus.success)
    calculateStatus := fun _ => Compass.ComplianceStatus.COMPLIANT }

/-- A mapper set registering `customMapperEx` under engine `"opa"`. -/
def setEngEx : Compass.MapperSet := [("opa", customMapperEx), ("basic", Compass.basicMapperI plansEx)]

/-- The batch response of `remoteItemErrEx` for the single id `r1`. -/
def respItemErrEx : Beacon.BatchMetadataResponse :=
  { results := [{ policyRuleId := "r1", metadata := none, error := some { message := "boom" } }] }

/-- Compass evidence whose engine `"opa"` has a registered mapper in
`setEngEx`. -/
def evidenceOpaEx : Compass.Evidence :=
  { policyEngineName := "opa"
    policyRuleId := "AC-1"
    policyEvaluationStatus := Gen.Passed
    timestamp := 0 }

/-- Compass evidence whose engine has no registered mapper in
`setEngEx`. -/
def evidenceNoEngineEx : Compass.Evidence :=
  { policyEngineName := "unregistered-engine"
    policyRuleId := "AC-1"
    policyEvaluationStatus := Gen.Passed
    timestamp := 0 }

/-! ## Helper lemmas -/

theorem foldl_append_singleton_map (entries : List Compass.MappingEntry) (acc : List String) :
    entries.foldl (fun acc2 entry => acc2 ++ [entry.referenceId]) acc =
      acc ++ entries.map (fun entry => entry.referenceId) := by
  induction entries generalizing acc with
  | nil => simp
  | cons e rest ih => simp [ih]

theorem extractRequirements_foldl (mappings : List Compass.Mapping) (acc : List String) :
    mappings.foldl
        (fun acc2 mapping =>
          mapping.entries.foldl (fun acc3 entry => acc3 ++ [entry.referenceId]) acc2)
        acc =
      acc ++ (mappings.map (fun mapping => mapping.entries.map (fun entry => entry.referenceId))).flatten := by
  induction mappings generalizing acc with
  | nil => simp
  | cons m rest ih =>
    rw [List.foldl_cons, foldl_append_singleton_map, ih]
    simp

/-- `extractRequirements` collects each mapping's entry refs in
encounter order, duplicates preserved. -/
theorem extractRequirements_eq (mappings : List Compass.Mapping) :
    Compass.extractRequirements mappings =
      (mappings.map (fun mapping => mapping.entries.map (fun entry => entry.referenceId))).flatten := by
  simpa using extractRequirements_foldl mappings []

theorem extractStandards_foldl (mappings : List Compass.Mapping) (acc : List String) :
    mappings.foldl (fun acc2 mapping => acc2 ++ [mapping.referenceId]) acc =
      acc ++ mappings.map (fun mapping => mapping.referenceId) := by
  induction mappings generalizing acc with
  | nil => simp
  | cons m rest ih => simp [ih]

/-- `extractStandards` collects each mapping's standard ref in
encounter order, duplicates preserved. -/
theorem extractStandards_eq (mappings : List Compass.Mapping) :
    Compass.extractStandards mappings = mappings.map (fun mapping => mapping.referenceId) := by
  simpa [Compass.extractStandards] using extractStandards_foldl mappings []

/-! ## C1 / C2: the metadata resolver -/

/-- C1: whenever some catalog in scope fully matches the rule (its
procedure index contains the rule id and its control index contains the
procedure's control), `GetMetadata` returns `Success` with the matched
requirement id as control id, the control family's title as category,
the matching catalog's id, the procedure's documentation as remediation
description, the requirement refs of the control's standard mappings in
encounter order with duplicates preserved, and the standard refs in
encounter order; the first matching catalog in encounter order wins and
determines the result. -/
theorem getMetadata_first_match (plans : List (String × List Compass.AssessmentPlan))
    (scope : Compass.Scope) (policyRuleId catalogId : String)
    (info : Compass.ProcedureInfo) (d : Compass.ControlData)
    (h : Compass.firstFullMatch plans scope policyRuleId = some (catalogId, info, d)) :
    Compass.getMetadata plans scope policyRuleId =
      ({ control :=
           { id := info.requirementID
             category := d.category
             remediationDescription := some info.documentation
             catalogId := catalogId }
         frameworks :=
           { requirements :=
               (d.mappings.map (fun mapping => mapping.entries.map (fun entry => entry.referenceId))).flatten
             frameworks := d.mappings.map (fun mapping => mapping.referenceId) }
         risk := none }, Compass.EnrichmentStatus.success) := by
  induction plans with
  | nil => simp [Compass.firstFullMatch] at h
  | cons entry rest ih =>
    obtain ⟨cid, cplans⟩ := entry
    rw [Compass.firstFullMatch] at h
    cases hf : Compass.fullMatch scope policyRuleId (cid, cplans) with
    | none =>
      rw [hf] at h
      cases hs : Compass.scopeFind scope cid with
      | none =>
        simp only [Compass.getMetadata, hs]
        exact ih h
      | some cat =>
        cases hp : Compass.buildProceduresMap cplans policyRuleId with
        | none =>
          simp only [Compass.getMetadata, hs, hp]
          exact ih h
        | some info2 =>
          cases hc : Compass.buildControlDataMap cat info2.controlID with
          | none =>
            simp only [Compass.getMetadata, hs, hp, hc]
            exact ih h
          | some d2 =>
            simp [Compass.fullMatch, hs, hp, hc] at hf
    | some r =>
      rw [hf] at h
      injection h with h
      subst h
      cases hs : Compass.scopeFind scope cid with
      | none => simp [Compass.fullMatch, hs] at hf
      | some cat =>
        cases hp : Compass.buildProceduresMap cplans policyRuleId with
        | none => simp [Compass.fullMatch, hs, hp] at hf
        | some info2 =>
          cases hc : Compass.buildControlDataMap cat info2.controlID with
          | none => simp [Compass.fullMatch, hs, hp, hc] at hf
          | some d2 =>
            simp only [Compass.fullMatch, hs, hp, hc, Option.some.injEq, Prod.mk.injEq] at hf
            obtain ⟨e1, e2, e3⟩ := hf
            subst e1
            subst e2
            subst e3
            simp only [Compass.getMetadata, hs, hp, hc]
            simp [Compass.successMetadata, Compass.extractRequirements,
              extractRequirements_foldl, extractStandards_eq]

/-- C2: when no catalog in scope yields a match (in particular when the
scope is empty or the rule id is absent from every catalog's
procedures), `GetMetadata` returns `Unmapped` with control id equal to
the rule id, category `"Unknown"`, catalog id `"unknown"`, and empty
requirement and framework lists. -/
theorem getMetadata_unmapped (plans : List (String × List Compass.AssessmentPlan))
    (scope : Compass.Scope) (policyRuleId : String)
    (h : Compass.firstFullMatch plans scope policyRuleId = none) :
    Compass.getMetadata plans scope policyRuleId =
      ({ control :=
           { id := policyRuleId
             category := "Unknown"
             remediationDescription := none
             catalogId := "unknown" }
         frameworks := { requirements := [], frameworks := [] }
         risk := none }, Compass.EnrichmentStatus.unmapped) := by
  induction plans with
  | nil => simp [Compass.getMetadata, Compass.fallbackMetadata]
  | cons entry rest ih =>
    obtain ⟨cid, cplans⟩ := entry
    rw [Compass.firstFullMatch] at h
    cases hf : Compass.fullMatch scope policyRuleId (cid, cplans) with
    | some r => rw [hf] at h; exact absurd h (by simp)
    | none =>
      rw [hf] at h
      cases hs : Compass.scopeFind scope cid with
      | none =>
        simp only [Compass.getMetadata, hs]
        exact ih h
      | some cat =>
        cases hp : Compass.buildProceduresMap cplans policyRuleId with
        | none =>
          simp only [Compass.getMetadata, hs, hp]
          exact ih h
        | some info2 =>
          cases hc : Compass.buildControlDataMap cat info2.controlID with
          | none =>
            simp only [Compass.getMetadata, hs, hp, hc]
            exact ih h
          | some d2 =>
            simp [Compass.fullMatch, hs, hp, hc] at hf

/-- Witness for C1: the spec's scenario (catalog `cat-A`, procedure
`AC-1`, control `AC`, requirement `AC-1-REQ`) fully matches, and
`GetMetadata` returns exactly the scenario's success result. -/
theorem getMetadata_first_match_witness :
    Compass.firstFullMatch plansEx scopeEx "AC-1" = some ("cat-A", infoEx, dataEx) ∧
      Compass.getMetadata plansEx scopeEx "AC-1" =
        ({ control :=
             { id := "AC-1-REQ"
               category := "Access Control"
               remediationDescription := some "Test procedure"
               catalogId := "cat-A" }
           frameworks := { requirements := ["AC-1"], frameworks := ["NIST-800-53"] }
           risk := none }, Compass.EnrichmentStatus.success) :=
  ⟨by decide, by
    have := getMetadata_first_match plansEx scopeEx "AC-1" "cat-A" infoEx dataEx (by decide)
    simpa [infoEx, dataEx] using this⟩

/-- Witness for C2: with an empty scope the scenario rule is unmapped
and `GetMetadata` returns the documented fallback. -/
theorem getMetadata_unmapped_witness :
    Compass.firstFullMatch plansEx [] "AC-1" = none ∧
      Compass.getMetadata plansEx [] "AC-1" =
        ({ control :=
             { id := "AC-1"
               category := "Unknown"
               remediationDescription := none
               catalogId := "unknown" }
           frameworks := { requirements := [], frameworks := [] }
           risk := none }, Compass.EnrichmentStatus.unmapped) :=
  ⟨by decide, getMetadata_unmapped plansEx [] "AC-1" (by decide)⟩

/-! ## C3: the compass status calculator -/

/-- C3: the compass status calculator is a total pure function of the
evaluation outcome alone: `Passed` maps to `COMPLIANT`, `Failed` to
`NONCOMPLIANT`, `NotRun` and `NotApplicable` to `NOTAPPLICABLE`, and
every other value (including `Unknown` and unrecognized strings) to
`UNKNOWN`; the result never depends on anything but the outcome. -/
theorem calculateStatus_total_rule :
    (∀ evidence : Compass.Evidence, evidence.policyEvaluationStatus = Gen.Passed →
        Compass.CalculateStatus evidence = Compass.ComplianceStatus.COMPLIANT) ∧
    (∀ evidence : Compass.Evidence, evidence.policyEvaluationStatus = Gen.Failed →
        Compass.CalculateStatus evidence = Compass.ComplianceStatus.NONCOMPLIANT) ∧
    (∀ evidence : Compass.Evidence,
        evidence.policyEvaluationStatus = Gen.NotRun ∨
          evidence.policyEvaluationStatus = Gen.NotApplicable →
        Compass.CalculateStatus evidence = Compass.ComplianceStatus.NOTAPPLICABLE) ∧
    (∀ evidence : Compass.Evidence,
        evidence.policyEvaluationStatus ≠ Gen.Passed →
        evidence.policyEvaluationStatus ≠ Gen.Failed →
        evidence.policyEvaluationStatus ≠ Gen.NotRun →
        evidence.policyEvaluationStatus ≠ Gen.NotApplicable →
        Compass.CalculateStatus evidence = Compass.ComplianceStatus.UNKNOWN) ∧
    (∀ e1 e2 : Compass.Evidence,
        e1.policyEvaluationStatus = e2.policyEvaluationStatus →
        Compass.CalculateStatus e1 = Compass.CalculateStatus e2) := by
  refine ⟨?_, ?_, ?_, ?_, ?_⟩
  · intro ev h
    simp [Compass.CalculateStatus, Compass.mapDecision, h]
  · intro ev h
    simp [Compass.CalculateStatus, Compass.mapDecision, h, Gen.Passed, Gen.Failed]
  · intro ev h
    rcases h with h | h <;>
      simp [Compass.CalculateStatus, Compass.mapDecision, h, Gen.Passed, Gen.Failed,
        Gen.NotRun, Gen.NotApplicable]
  · intro ev h1 h2 h3 h4
    simp [Compass.CalculateStatus, Compass.mapDecision, h1, h2, h3, h4]
  · intro e1 e2 h
    simp [Compass.CalculateStatus, h]

/-- Witness for C3: `Passed` evidence yields `COMPLIANT`, a string
outside the enum yields `UNKNOWN`. -/
theorem calculateStatus_total_rule_witness :
    evidenceEx.policyEvaluationStatus = Gen.Passed ∧
      Compass.CalculateStatus evidenceEx = Compass.ComplianceStatus.COMPLIANT ∧
      Compass.CalculateStatus
          { evidenceEx with policyEvaluationStatus := "garbage" } =
        Compass.ComplianceStatus.UNKNOWN :=
  ⟨rfl, calculateStatus_total_rule.1 evidenceEx rfl,
    calculateStatus_total_rule.2.2.2.1
      { evidenceEx with policyEvaluationStatus := "garbage" }
      (by decide) (by decide) (by decide) (by decide)⟩

/-! ## C5: the truthbeam local status recomputation omits `NotRun` -/

/-- C5 (divergence): the truthbeam cacheable client's local status
recomputation maps `NotRun` evidence to `UNKNOWN`, while the compass
status calculator — the rule the claim states — maps `NotRun` to
`NOTAPPLICABLE`; a `Retrieve` on a warm cache therefore returns an
`UNKNOWN` verdict for `NotRun` evidence. -/
theorem beacon_calculateStatus_notRun_bug :
    Beacon.calculateStatus beaconNotRunEvidence = Compass.ComplianceStatus.UNKNOWN ∧
    Compass.mapDecision Gen.NotRun = Compass.ComplianceStatus.NOTAPPLICABLE ∧
    Compass.ComplianceStatus.UNKNOWN ≠ Compass.ComplianceStatus.NOTAPPLICABLE ∧
    (Beacon.retrieve remoteOkEx cacheEx beaconNotRunEvidence).result =
      Except.ok
        { compliance := Beacon.combine beaconMetadataEx Compass.ComplianceStatus.UNKNOWN } := by
  refine ⟨by decide, by decide, by decide, rfl⟩

/-! ## C4 / C8: the cacheable client's retrieve path -/

theorem cacheGet_cacheSet_self (c : Beacon.Cache) (k : String) (v : Beacon.ComplianceMetadata) :
    Beacon.cacheGet (Beacon.cacheSet c k v) k = some v := by
  simp [Beacon.cacheGet, Beacon.cacheSet]

/-- C4: if a rule id is cold in the cache and the first `Retrieve`
succeeds, then a second `Retrieve` for the same rule id is a cache hit:
the first call made exactly one remote fetch, the second makes none and
leaves the cache untouched, both calls return the same metadata, and
the second call's verdict is recomputed locally from its own
evidence. -/
theorem retrieve_cache_hit (remote : Beacon.Remote) (cache : Beacon.Cache)
    (ev1 ev2 : Beacon.Evidence) (resp1 : Beacon.EnrichmentResponse)
    (hcold : Beacon.cacheGet cache ev1.policyRuleId = none)
    (h1 : (Beacon.retrieve remote cache ev1).result = Except.ok resp1)
    (hsame : ev2.policyRuleId = ev1.policyRuleId) :
    (Beacon.retrieve remote cache ev1).remoteCalls = 1 ∧
    (Beacon.retrieve remote (Beacon.retrieve remote cache ev1).cache ev2).remoteCalls = 0 ∧
    (Beacon.retrieve remote (Beacon.retrieve remote cache ev1).cache ev2).cache =
      (Beacon.retrieve remote cache ev1).cache ∧
    ∃ resp2,
      (Beacon.retrieve remote (Beacon.retrieve remote cache ev1).cache ev2).result =
        Except.ok resp2 ∧
      resp2.compliance.control = resp1.compliance.control ∧
      resp2.compliance.frameworks = resp1.compliance.frameworks ∧
      resp2.compliance.risk = resp1.compliance.risk ∧
      resp2.compliance.enrichmentStatus = resp1.compliance.enrichmentStatus ∧
      resp2.compliance.status = some (Beacon.calculateStatus ev2) := by
  cases hfm : Beacon.fetchMetadata remote ev1.policyRuleId with
  | error e => simp [Beacon.retrieve, hcold, hfm] at h1
  | ok metadata =>
    have hr : Beacon.retrieve remote cache ev1 =
        { result := Except.ok { compliance := Beacon.combine metadata (Beacon.calculateStatus ev1) }
          cache := Beacon.cacheSet cache ev1.policyRuleId metadata
          remoteCalls := 1 } := by
      simp [Beacon.retrieve, hcold, hfm]
    rw [hr] at h1
    simp only [Except.ok.injEq] at h1
    subst h1
    have hhit : Beacon.cacheGet (Beacon.cacheSet cache ev1.policyRuleId metadata)
        ev2.policyRuleId = some metadata := by
      rw [hsame]
      exact cacheGet_cacheSet_self cache ev1.policyRuleId metadata
    have hr2 : Beacon.retrieve remote
        (Beacon.cacheSet cache ev1.policyRuleId metadata) ev2 =
        { result := Except.ok { compliance := Beacon.combine metadata (Beacon.calculateStatus ev2) }
          cache := Beacon.cacheSet cache ev1.policyRuleId metadata
          remoteCalls := 0 } := by
      simp [Beacon.retrieve, hhit]
    have key : Beacon.retrieve remote (Beacon.retrieve remote cache ev1).cache ev2 =
        { result := Except.ok { compliance := Beacon.combine metadata (Beacon.calculateStatus ev2) }
          cache := Beacon.cacheSet cache ev1.policyRuleId metadata
          remoteCalls := 0 } := by
      rw [hr]
      exact hr2
    exact ⟨by rw [hr], by rw [key], by rw [key, hr],
      ⟨{ compliance := Beacon.combine metadata (Beacon.calculateStatus ev2) },
        by rw [key], rfl, rfl, rfl, rfl, rfl⟩⟩

/-- Witness for C4: with an empty cache and a healthy remote, two
retrieves of `AC-1` make exactly one remote call in total and agree on
the metadata. -/
theorem retrieve_cache_hit_witness :
    Beacon.cacheGet [] (mkBeaconEvidence "AC-1").policyRuleId = none ∧
    (Beacon.retrieve remoteOkEx [] (mkBeaconEvidence "AC-1")).result = Except.ok respEx ∧
    ((Beacon.retrieve remoteOkEx [] (mkBeaconEvidence "AC-1")).remoteCalls = 1 ∧
      (Beacon.retrieve remoteOkEx
          (Beacon.retrieve remoteOkEx [] (mkBeaconEvidence "AC-1")).cache
          (mkBeaconEvidence "AC-1")).remoteCalls = 0 ∧
      (Beacon.retrieve remoteOkEx
          (Beacon.retrieve remoteOkEx [] (mkBeaconEvidence "AC-1")).cache
          (mkBeaconEvidence "AC-1")).cache =
        (Beacon.retrieve remoteOkEx [] (mkBeaconEvidence "AC-1")).cache ∧
      ∃ resp2,
        (Beacon.retrieve remoteOkEx
            (Beacon.retrieve remoteOkEx [] (mkBeaconEvidence "AC-1")).cache
            (mkBeaconEvidence "AC-1")).result = Except.ok resp2 ∧
        resp2.compliance.control = respEx.compliance.control ∧
        resp2.compliance.frameworks = respEx.compliance.frameworks ∧
        resp2.compliance.risk = respEx.compliance.risk ∧
        resp2.compliance.enrichmentStatus = respEx.compliance.enrichmentStatus ∧
        resp2.compliance.status = some (Beacon.calculateStatus (mkBeaconEvidence "AC-1"))) :=
  ⟨rfl, rfl,
    retrieve_cache_hit remoteOkEx [] (mkBeaconEvidence "AC-1") (mkBeaconEvidence "AC-1")
      respEx rfl rfl rfl⟩

/-- C8: a `Retrieve` whose rule id is cold in the cache and whose
single-item remote fetch fails — transport error, empty result list,
per-item error, or nil metadata — surfaces an error to the caller and
leaves the cache unchanged. -/
theorem retrieve_fetch_failure (remote : Beacon.Remote) (cache : Beacon.Cache)
    (ev : Beacon.Evidence)
    (hcold : Beacon.cacheGet cache ev.policyRuleId = none)
    (hfail : (∃ e, remote [ev.policyRuleId] = Except.error e) ∨
      ∃ resp, remote [ev.policyRuleId] = Except.ok resp ∧
        (resp.results = [] ∨
          ∃ r rest, resp.results = r :: rest ∧ (r.error ≠ none ∨ r.metadata = none))) :
    (∃ e, (Beacon.retrieve remote cache ev).result = Except.error e) ∧
    (Beacon.retrieve remote cache ev).cache = cache := by
  have hfm : ∃ e, Beacon.fetchMetadata remote ev.policyRuleId = Except.error e := by
    rcases hfail with ⟨e, he⟩ | ⟨resp, hok, hbad⟩
    · exact ⟨"failed to call batch metadata API: " ++ e, by simp [Beacon.fetchMetadata, he]⟩
    · rcases hbad with hnil | ⟨r, rest, hres, hitem⟩
      · exact ⟨"no metadata returned for policy rule " ++ ev.policyRuleId,
          by simp [Beacon.fetchMetadata, hok, hnil]⟩
      · rcases hitem with herr | hmd
        · obtain ⟨err, herr⟩ := Option.ne_none_iff_exists'.mp herr
          exact ⟨"error fetching metadata for policy rule " ++ ev.policyRuleId ++ ": " ++ err.message,
            by simp [Beacon.fetchMetadata, hok, hres, herr]⟩
        · cases herr2 : r.error with
          | some err =>
            exact ⟨"error fetching metadata for policy rule " ++ ev.policyRuleId ++ ": " ++ err.message,
              by simp [Beacon.fetchMetadata, hok, hres, herr2]⟩
          | none =>
            exact ⟨"no metadata found for policy rule " ++ ev.policyRuleId,
              by simp [Beacon.fetchMetadata, hok, hres, herr2, hmd]⟩
  obtain ⟨e, hfm⟩ := hfm
  exact ⟨⟨"failed to fetch metadata: " ++ e, by simp [Beacon.retrieve, hcold, hfm]⟩,
    by simp [Beacon.retrieve, hcold, hfm]⟩

/-- Witness for C8: a cold retrieve against a remote whose transport
fails returns an error and leaves the empty cache empty. -/
theorem retrieve_fetch_failure_witness :
    Beacon.cacheGet [] (mkBeaconEvidence "AC-1").policyRuleId = none ∧
    remoteFailEx [(mkBeaconEvidence "AC-1").policyRuleId] = Except.error "connection refused" ∧
    ((∃ e, (Beacon.retrieve remoteFailEx [] (mkBeaconEvidence "AC-1")).result = Except.error e) ∧
      (Beacon.retrieve remoteFailEx [] (mkBeaconEvidence "AC-1")).cache = []) :=
  ⟨rfl, rfl,
    retrieve_fetch_failure remoteFailEx [] (mkBeaconEvidence "AC-1") rfl
      (Or.inl ⟨"connection refused", rfl⟩)⟩

/-! ## C6 / C7: the prefetch pipeline -/

theorem dedupIds_eq_firstOccurrences_aux (l : List Beacon.Evidence) :
    ∀ seen : List String,
      Beacon.dedupIds l seen =
        Beacon.firstOccurrences
          ((l.map (fun e => e.policyRuleId)).filter (fun x => decide ¬(x ∈ seen))) := by
  induction l with
  | nil => intro seen; simp [Beacon.dedupIds, Beacon.firstOccurrences]
  | cons e rest ih =>
    intro seen
    by_cases h : e.policyRuleId ∈ seen
    · rw [Beacon.dedupIds, if_pos h, ih seen]
      congr 1
      simp [List.filter_cons, h]
    · rw [Beacon.dedupIds, if_neg h]
      have hcons :
          (((e :: rest).map (fun e => e.policyRuleId)).filter (fun x => decide ¬(x ∈ seen))) =
            e.policyRuleId ::
              ((rest.map (fun e => e.policyRuleId)).filter (fun x => decide ¬(x ∈ seen))) := by
        simp [List.filter_cons, h]
      rw [hcons, Beacon.firstOccurrences]
      congr 1
      rw [ih (e.policyRuleId :: seen), List.filter_filter]
      have hfun : (fun x => decide ¬(x ∈ e.policyRuleId :: seen)) =
          (fun a => decide ¬(a = e.policyRuleId) && decide ¬(a ∈ seen)) := by
        funext y
        by_cases h1 : y = e.policyRuleId <;> by_cases h2 : y ∈ seen <;> simp [h1, h2]
      rw [hfun]

/-- The prefetch deduplication loop keeps exactly the first occurrence
of each rule id, in order. -/
theorem dedupIds_eq_firstOccurrences (l : List Beacon.Evidence) :
    Beacon.dedupIds l [] = Beacon.firstOccurrences (l.map (fun e => e.policyRuleId)) := by
  have h := dedupIds_eq_firstOccurrences_aux l []
  simpa using h

theorem chunksOf_flatten_bounded (n : Nat) (m : Nat) :
    ∀ l : List String, l.length ≤ m → (Beacon.chunksOf n l).flatten = l := by
  induction m with
  | zero =>
    intro l hl
    have : l = [] := List.eq_nil_of_length_eq_zero (Nat.le_zero.mp hl)
    subst this
    simp [Beacon.chunksOf]
  | succ m ih =>
    intro l hl
    cases l with
    | nil => simp [Beacon.chunksOf]
    | cons x xs =>
      rw [Beacon.chunksOf]
      simp only [List.flatten_cons]
      rw [ih (xs.drop (n - 1)) (by simp [List.length_drop]; simp at hl; omega)]
      simp

/-- Flattening the chunks recovers the id list. -/
theorem chunksOf_flatten (n : Nat) (l : List String) :
    (Beacon.chunksOf n l).flatten = l :=
  chunksOf_flatten_bounded n l.length l le_rfl

theorem chunksOf_mem_bounded (n : Nat) (hn : 1 ≤ n) (m : Nat) :
    ∀ l : List String, l.length ≤ m →
      ∀ b ∈ Beacon.chunksOf n l, b.length ≤ n ∧ b ≠ [] := by
  induction m with
  | zero =>
    intro l hl
    have : l = [] := List.eq_nil_of_length_eq_zero (Nat.le_zero.mp hl)
    subst this
    simp [Beacon.chunksOf]
  | succ m ih =>
    intro l hl b hb
    cases l with
    | nil => simp [Beacon.chunksOf] at hb
    | cons x xs =>
      rw [Beacon.chunksOf] at hb
      rcases List.mem_cons.mp hb with hhead | htail
      · subst hhead
        refine ⟨?_, by simp⟩
        have := List.length_take_le (n - 1) xs
        simp only [List.length_cons]
        omega
      · exact ih (xs.drop (n - 1)) (by simp [List.length_drop]; simp at hl; omega) b htail

theorem mem_firstOccurrences_bounded (m : Nat) :
    ∀ l : List String, l.length ≤ m → ∀ x ∈ Beacon.firstOccurrences l, x ∈ l := by
  induction m with
  | zero =>
    intro l hl
    have : l = [] := List.eq_nil_of_length_eq_zero (Nat.le_zero.mp hl)
    subst this
    simp [Beacon.firstOccurrences]
  | succ m ih =>
    intro l hl x hx
    cases l with
    | nil => simp [Beacon.firstOccurrences] at hx
    | cons y ys =>
      rw [Beacon.firstOccurrences] at hx
      rcases List.mem_cons.mp hx with hhead | htail
      · simp [hhead]
      · have hmem := ih (ys.filter (fun z => decide ¬(z = y)))
          (by
            have := List.length_filter_le (fun z => decide ¬(z = y)) ys
            simp at hl
            omega)
          x htail
        have := List.mem_of_mem_filter hmem
        simp [this]

theorem firstOccurrences_nodup_bounded (m : Nat) :
    ∀ l : List String, l.length ≤ m → (Beacon.firstOccurrences l).Nodup := by
  induction m with
  | zero =>
    intro l hl
    have : l = [] := List.eq_nil_of_length_eq_zero (Nat.le_zero.mp hl)
    subst this
    simp [Beacon.firstOccurrences]
  | succ m ih =>
    intro l hl
    cases l with
    | nil => simp [Beacon.firstOccurrences]
    | cons y ys =>
      rw [Beacon.firstOccurrences]
      have hlen : (ys.filter (fun z => decide ¬(z = y))).length ≤ m := by
        have := List.length_filter_le (fun z => decide ¬(z = y)) ys
        simp at hl
        omega
      refine List.nodup_cons.mpr ⟨?_, ih _ hlen⟩
      intro hmem
      have hin := mem_firstOccurrences_bounded _ _ hlen y hmem
      have := List.of_mem_filter hin
      simp at this

/-- The deduplicated id list contains no repeats. -/
theorem firstOccurrences_nodup (l : List String) : (Beacon.firstOccurrences l).Nodup :=
  firstOccurrences_nodup_bounded l.length l le_rfl

theorem prefetch_foldl_sent (remote : Beacon.Remote) :
    ∀ (batches : List (List String)) (c : Beacon.Cache) (acc : List (List String)),
      (batches.foldl (Beacon.prefetchStep remote) (c, acc)).2 = acc ++ batches := by
  intro batches
  induction batches with
  | nil => intro c acc; simp
  | cons b rest ih =>
    intro c acc
    rw [List.foldl_cons]
    rw [show Beacon.prefetchStep remote (c, acc) b =
      ((Beacon.prefetchBatch remote c b).2, acc ++ [b]) from rfl]
    rw [ih]
    simp

/-- The batches handed to the remote endpoint are exactly the chunks of
the deduplicated id list, whatever the remote answers. -/
theorem prefetch_sent_eq (remote : Beacon.Remote) (cache : Beacon.Cache)
    (evidenceList : List Beacon.Evidence) :
    (Beacon.prefetch remote cache evidenceList).sent =
      Beacon.chunksOf 50 (Beacon.dedupIds evidenceList []) := by
  rw [Beacon.prefetch]
  by_cases h : (Beacon.dedupIds evidenceList []).isEmpty
  · have : Beacon.dedupIds evidenceList [] = [] := by
      simpa [List.isEmpty_iff] using h
    simp [h, this, Beacon.chunksOf]
  · simp only [h, if_neg, Bool.not_eq_true]
    simp [prefetch_foldl_sent]

/-- C6: prefetch sends to the remote batch endpoint exactly the
distinct rule ids of the input — deduplicated with first-occurrence
order preserved — partitioned into consecutive nonempty chunks of at
most 50 ids, one remote batch request per chunk; an empty input sends
nothing and succeeds. -/
theorem prefetch_chunked_dedup (remote : Beacon.Remote) (cache : Beacon.Cache)
    (evidenceList : List Beacon.Evidence) :
    (Beacon.prefetch remote cache evidenceList).sent.flatten =
        Beacon.firstOccurrences (evidenceList.map (fun e => e.policyRuleId)) ∧
    (Beacon.prefetch remote cache evidenceList).sent.flatten.Nodup ∧
    (∀ b ∈ (Beacon.prefetch remote cache evidenceList).sent, b.length ≤ 50 ∧ b ≠ []) ∧
    Beacon.prefetch remote cache [] = { err := none, cache := cache, sent := [] } := by
  refine ⟨?_, ?_, ?_, ?_⟩
  · rw [prefetch_sent_eq, chunksOf_flatten, dedupIds_eq_firstOccurrences]
  · rw [prefetch_sent_eq, chunksOf_flatten, dedupIds_eq_firstOccurrences]
    exact firstOccurrences_nodup _
  · intro b hb
    rw [prefetch_sent_eq] at hb
    exact chunksOf_mem_bounded 50 (by omega) _ _ le_rfl b hb
  · simp [Beacon.prefetch, Beacon.dedupIds]

/-- Witness for C6: the three-element list with a duplicated id sends
one batch holding exactly the two distinct ids, in first-occurrence
order. -/
theorem prefetch_chunked_dedup_witness :
    (Beacon.prefetch remoteOkEx [] beaconEvListEx).sent = [["r1", "r2"]] ∧
    ["r1", "r2"] ∈ (Beacon.prefetch remoteOkEx [] beaconEvListEx).sent ∧
    ((["r1", "r2"] : List String).length ≤ 50 ∧ (["r1", "r2"] : List String) ≠ []) ∧
    Beacon.prefetch remoteOkEx [] [] = { err := none, cache := [], sent := [] } := by
  have hsent : (Beacon.prefetch remoteOkEx [] beaconEvListEx).sent = [["r1", "r2"]] := by
    rw [prefetch_sent_eq]
    simp [beaconEvListEx, mkBeaconEvidence, Beacon.dedupIds, Beacon.chunksOf]
  refine ⟨hsent, by rw [hsent]; simp, ?_, (prefetch_chunked_dedup remoteOkEx [] []).2.2.2⟩
  exact (prefetch_chunked_dedup remoteOkEx [] beaconEvListEx).2.2.1 ["r1", "r2"]
    (by rw [hsent]; simp)

theorem cacheGet_cacheSet_ne (c : Beacon.Cache) (k k' : String)
    (v : Beacon.ComplianceMetadata) (h : k' ≠ k) :
    Beacon.cacheGet (Beacon.cacheSet c k v) k' = Beacon.cacheGet c k' := by
  have hfind : ∀ c2 : Beacon.Cache,
      List.find? (fun p => p.1 == k') (List.filter (fun p => p.1 != k) c2) =
        List.find? (fun p => p.1 == k') c2 := by
    intro c2
    induction c2 with
    | nil => rfl
    | cons p rest ih =>
      by_cases hp : p.1 = k
      · have hpb : (p.1 != k) = false := by simp [hp]
        have hkk2 : (p.1 == k') = false := by
          simp [hp]
          exact fun he => h he.symm
        simp [List.filter_cons, hpb, List.find?_cons, hkk2, ih]
      · have hpb : (p.1 != k) = true := by simp [hp]
        cases hc : (p.1 == k') with
        | true => simp [List.filter_cons, hpb, List.find?_cons, hc]
        | false => simp [List.filter_cons, hpb, List.find?_cons, hc, ih]
  have hhead : (k == k') = false := by
    simp
    exact fun he => h he.symm
  simp [Beacon.cacheGet, Beacon.cacheSet, List.find?_cons, hhead, hfind]

theorem cacheWriteStep_foldl_no_write (k : String) :
    ∀ (results : List Beacon.BatchMetadataResult) (c : Beacon.Cache),
      (∀ r ∈ results, r.policyRuleId = k → ¬(r.error = none ∧ r.metadata ≠ none)) →
      Beacon.cacheGet (results.foldl Beacon.cacheWriteStep c) k = Beacon.cacheGet c k := by
  intro results
  induction results with
  | nil => intro c _; rfl
  | cons r rest ih =>
    intro c hok
    rw [List.foldl_cons]
    rw [ih _ (fun r2 h2 => hok r2 (List.mem_cons_of_mem r h2))]
    cases herr : r.error with
    | some e => simp [Beacon.cacheWriteStep, herr]
    | none =>
      cases hmd : r.metadata with
      | none => simp [Beacon.cacheWriteStep, herr, hmd]
      | some md =>
        have hne : r.policyRuleId ≠ k := by
          intro hEq
          exact hok r (List.mem_cons_self r rest) hEq ⟨herr, by simp [hmd]⟩
        rw [show Beacon.cacheWriteStep c r = Beacon.cacheSet c r.policyRuleId md by
          simp [Beacon.cacheWriteStep, herr, hmd]]
        exact cacheGet_cacheSet_ne c r.policyRuleId k md (fun he => hne he.symm)

/-- C7: prefetch always returns success and attempts every batch, even
when remote batches fail; a batch whose transport fails leaves the
cache unchanged, and within a successful batch response only per-item
results carrying no error and non-nil metadata are written — a key with
no such result keeps its previous cache value. -/
theorem prefetch_best_effort (remote remote2 : Beacon.Remote) (cache c : Beacon.Cache)
    (evidenceList : List Beacon.Evidence) (b : List String)
    (resp : Beacon.BatchMetadataResponse) (k : String) :
    (Beacon.prefetch remote cache evidenceList).err = none ∧
    (Beacon.prefetch remote cache evidenceList).sent =
      (Beacon.prefetch remote2 cache evidenceList).sent ∧
    (∀ e, remote b = Except.error e →
        Beacon.prefetchBatch remote c b =
          (some ("failed to call batch metadata API: " ++ e), c)) ∧
    (remote b = Except.ok resp →
      (∀ r ∈ resp.results, r.policyRuleId = k → ¬(r.error = none ∧ r.metadata ≠ none)) →
      Beacon.cacheGet (Beacon.prefetchBatch remote c b).2 k = Beacon.cacheGet c k) := by
  refine ⟨?_, ?_, ?_, ?_⟩
  · rw [Beacon.prefetch]
    by_cases h : (Beacon.dedupIds evidenceList []).isEmpty <;> simp [h]
  · rw [prefetch_sent_eq, prefetch_sent_eq]
  · intro e he
    simp [Beacon.prefetchBatch, he]
  · intro hok hitems
    rw [show (Beacon.prefetchBatch remote c b).2 = resp.results.foldl Beacon.cacheWriteStep c by
      simp [Beacon.prefetchBatch, hok]]
    exact cacheWriteStep_foldl_no_write k resp.results c hitems

/-- Witness for C7: a failing transport still yields overall success
and an unchanged cache; a successful batch whose only item is an error
entry caches nothing. -/
theorem prefetch_best_effort_witness :
    (Beacon.prefetch remoteFailEx [] beaconEvListEx).err = none ∧
    remoteFailEx ["r1"] = Except.error "connection refused" ∧
    Beacon.prefetchBatch remoteFailEx [] ["r1"] =
      (some ("failed to call batch metadata API: " ++ "connection refused"), []) ∧
    remoteItemErrEx ["r1"] = Except.ok respItemErrEx ∧
    Beacon.cacheGet (Beacon.prefetchBatch remoteItemErrEx [] ["r1"]).2 "r1" =
      Beacon.cacheGet [] "r1" :=
  ⟨(prefetch_best_effort remoteFailEx remoteFailEx [] [] beaconEvListEx ["r1"]
      respItemErrEx "r1").1,
    rfl,
    (prefetch_best_effort remoteFailEx remoteFailEx [] [] beaconEvListEx ["r1"]
      respItemErrEx "r1").2.2.1 "connection refused" rfl,
    rfl,
    (prefetch_best_effort remoteItemErrEx remoteItemErrEx [] [] beaconEvListEx ["r1"]
      respItemErrEx "r1").2.2.2 rfl (by decide)⟩

/-! ## C9 / C10: the batch request handler and resolver dispatch -/

theorem batchStep_foldl (m : Compass.MapperI) (scope : Compass.Scope) :
    ∀ (l : List (Nat × String)) (acc : List Compass.BatchMetadataResult) (n : Nat),
      l.foldl (Compass.batchStep m scope) (acc, n) =
        (acc ++ l.map (fun e =>
            { index := e.1
              policyRuleId := e.2
              metadata := some (m.getMetadata e.2 scope).1 }),
          n + l.length) := by
  intro l
  induction l with
  | nil => intro acc n; simp
  | cons e rest ih =>
    intro acc n
    rw [List.foldl_cons]
    rw [show Compass.batchStep m scope (acc, n) e =
      (acc ++ [{ index := e.1
                 policyRuleId := e.2
                 metadata := some (m.getMetadata e.2 scope).1 }], n + 1) from rfl]
    rw [ih]
    rw [Prod.mk.injEq]
    refine ⟨by simp, by simp; omega⟩

/-- On a nonempty id list the batch handler returns the mapped results
and the all-success summary. -/
theorem postV1MetadataBatch_ok (set : Compass.MapperSet) (scope : Compass.Scope)
    (ids : List String) (h : ids ≠ []) :
    Compass.postV1MetadataBatch set scope ids =
      Except.ok
        { results := ids.enum.map (fun e =>
            { index := e.1
              policyRuleId := e.2
              metadata := some
                (((Compass.setFind set "basic").getD Compass.newBasicMapper).getMetadata
                  e.2 scope).1 })
          summary := { total := ids.length, success := ids.length, failed := 0 } } := by
  rw [Compass.postV1MetadataBatch]
  rw [if_neg (by simpa [List.length_eq_zero] using h)]
  simp only [batchStep_foldl]
  simp [List.enum_length]

/-- C9: a nonempty list of N rule ids yields exactly N per-item
results, the i-th carrying its original index i and an always-present
metadata object (falling back to the unmapped default rather than
omitting output), together with a summary whose total is N, whose
success counts every item that produced a result object (all N of
them), and whose failed is total minus success (zero here — reserved
for transport-level failures); the empty list is rejected with an error
and not processed. -/
theorem batch_handler_contract (set : Compass.MapperSet) (scope : Compass.Scope)
    (ids : List String) :
    (ids = [] → Compass.postV1MetadataBatch set scope ids =
        Except.error { code := 400, message := "At least one policy rule ID is required" }) ∧
    (ids ≠ [] → ∃ resp, Compass.postV1MetadataBatch set scope ids = Except.ok resp ∧
      resp.results.length = ids.length ∧
      (∀ i, ∀ h : i < ids.length,
          resp.results.get? i = some
            { index := i
              policyRuleId := ids.get ⟨i, h⟩
              metadata := some
                (((Compass.setFind set "basic").getD Compass.newBasicMapper).getMetadata
                  (ids.get ⟨i, h⟩) scope).1 }) ∧
      (∀ r ∈ resp.results, r.metadata ≠ none) ∧
      resp.summary.total = ids.length ∧
      resp.summary.success = ids.length ∧
      resp.summary.failed = resp.summary.total - resp.summary.success) := by
  constructor
  · intro h
    subst h
    rw [Compass.postV1MetadataBatch]
    rfl
  · intro h
    refine ⟨_, postV1MetadataBatch_ok set scope ids h, ?_, ?_, ?_, rfl, rfl, by simp⟩
    · simp [List.enum_length]
    · intro i hi
      rw [List.get?_map, List.get?_enum, List.get?_eq_get hi]
      rfl
    · intro r hr
      simp only [List.mem_map] at hr
      obtain ⟨e, _, he⟩ := hr
      rw [← he]
      simp

/-- Witness for C9: the empty list is rejected; the two-element list
(one mapped rule, one unknown rule) produces two results with original
indexes, present metadata, and summary total 2, success 2, failed 0. -/
theorem batch_handler_contract_witness :
    Compass.postV1MetadataBatch setEx scopeEx [] =
        Except.error { code := 400, message := "At least one policy rule ID is required" } ∧
    (["AC-1", "zz"] : List String) ≠ [] ∧
    (∃ resp, Compass.postV1MetadataBatch setEx scopeEx ["AC-1", "zz"] = Except.ok resp ∧
      resp.results.length = (["AC-1", "zz"] : List String).length ∧
      (∀ i, ∀ h : i < (["AC-1", "zz"] : List String).length,
          resp.results.get? i = some
            { index := i
              policyRuleId := (["AC-1", "zz"] : List String).get ⟨i, h⟩
              metadata := some
                (((Compass.setFind setEx "basic").getD Compass.newBasicMapper).getMetadata
                  ((["AC-1", "zz"] : List String).get ⟨i, h⟩) scopeEx).1 }) ∧
      (∀ r ∈ resp.results, r.metadata ≠ none) ∧
      resp.summary.total = (["AC-1", "zz"] : List String).length ∧
      resp.summary.success = (["AC-1", "zz"] : List String).length ∧
      resp.summary.failed = resp.summary.total - resp.summary.success) :=
  ⟨(batch_handler_contract setEx scopeEx []).1 rfl, by decide,
    (batch_handler_contract setEx scopeEx ["AC-1", "zz"]).2 (by decide)⟩

/-- C10: batch items are resolved independently — the i-th result's
metadata equals the metadata of resolving that single id alone — and
the resolver applied to every batch item is the one registered under
`"basic"`, or a fresh baseline basic mapper when none is registered
(batch items carry no engine name, so the per-item engine-name lookup
always falls through to the baseline); on the single-item enrich path
the resolver is selected by the evidence's engine name, falling back to
the fresh baseline basic mapper when that engine has no registered
implementation. -/
theorem per_item_dispatch (set : Compass.MapperSet) (scope : Compass.Scope)
    (ids : List String) (evidence : Compass.Evidence) :
    (∀ i (h : i < ids.length) resp respSingle,
        Compass.postV1MetadataBatch set scope ids = Except.ok resp →
        Compass.postV1MetadataBatch set scope [ids.get ⟨i, h⟩] = Except.ok respSingle →
        (resp.results.get? i).map (fun r => r.metadata) =
          (respSingle.results.get? 0).map (fun r => r.metadata)) ∧
    (∀ m, Compass.setFind set "basic" = some m →
        ∀ i (h : i < ids.length) resp,
          Compass.postV1MetadataBatch set scope ids = Except.ok resp →
          resp.results.get? i = some
            { index := i
              policyRuleId := ids.get ⟨i, h⟩
              metadata := some (m.getMetadata (ids.get ⟨i, h⟩) scope).1 }) ∧
    (Compass.setFind set "basic" = none →
        ∀ i (h : i < ids.length) resp,
          Compass.postV1MetadataBatch set scope ids = Except.ok resp →
          resp.results.get? i = some
            { index := i
              policyRuleId := ids.get ⟨i, h⟩
              metadata := some (Compass.newBasicMapper.getMetadata (ids.get ⟨i, h⟩) scope).1 }) ∧
    (∀ m, Compass.setFind set evidence.policyEngineName = some m →
        Compass.postV1Enrich set scope evidence = Compass.enrich evidence m scope) ∧
    (Compass.setFind set evidence.policyEngineName = none →
        Compass.postV1Enrich set scope evidence = Compass.enrich evidence Compass.newBasicMapper scope) := by
  have hne : ∀ i, i < ids.length → ids ≠ [] := by
    intro i hi hnil
    subst hnil
    simp at hi
  have hitem : ∀ i (h : i < ids.length) resp,
      Compass.postV1MetadataBatch set scope ids = Except.ok resp →
      resp.results.get? i = some
        { index := i
          policyRuleId := ids.get ⟨i, h⟩
          metadata := some
            (((Compass.setFind set "basic").getD Compass.newBasicMapper).getMetadata
              (ids.get ⟨i, h⟩) scope).1 } := by
    intro i h resp hresp
    rw [postV1MetadataBatch_ok set scope ids (hne i h)] at hresp
    simp only [Except.ok.injEq] at hresp
    subst hresp
    rw [List.get?_map, List.get?_enum, List.get?_eq_get h]
    rfl
  refine ⟨?_, ?_, ?_, ?_, ?_⟩
  · intro i h resp respSingle hresp hsingle
    rw [hitem i h resp hresp]
    rw [postV1MetadataBatch_ok set scope [ids.get ⟨i, h⟩] (by simp)] at hsingle
    simp only [Except.ok.injEq] at hsingle
    subst hsingle
    rfl
  · intro m hm i h resp hresp
    rw [hitem i h resp hresp, hm]
    rfl
  · intro hm i h resp hresp
    rw [hitem i h resp hresp, hm]
    rfl
  · intro m hm
    rw [Compass.postV1Enrich, hm]
    rfl
  · intro hm
    rw [Compass.postV1Enrich, hm]
    rfl

/-- Witness for C10: in `setEngEx` the engine `"opa"` dispatches to its
registered mapper and an unregistered engine falls back to the fresh
basic mapper; the first item of a two-item batch resolves exactly as a
singleton batch of the same id. -/
theorem per_item_dispatch_witness :
    Compass.setFind setEngEx evidenceOpaEx.policyEngineName = some customMapperEx ∧
    Compass.postV1Enrich setEngEx scopeEx evidenceOpaEx =
      Compass.enrich evidenceOpaEx customMapperEx scopeEx ∧
    Compass.setFind setEngEx evidenceNoEngineEx.policyEngineName = none ∧
    Compass.postV1Enrich setEngEx scopeEx evidenceNoEngineEx =
      Compass.enrich evidenceNoEngineEx Compass.newBasicMapper scopeEx ∧
    (∃ resp respSingle,
      Compass.postV1MetadataBatch setEx scopeEx ["AC-1", "zz"] = Except.ok resp ∧
      Compass.postV1MetadataBatch setEx scopeEx ["AC-1"] = Except.ok respSingle ∧
      (resp.results.get? 0).map (fun r => r.metadata) =
        (respSingle.results.get? 0).map (fun r => r.metadata)) :=
  ⟨rfl,
    (per_item_dispatch setEngEx scopeEx ["AC-1", "zz"] evidenceOpaEx).2.2.2.1
      customMapperEx rfl,
    rfl,
    (per_item_dispatch setEngEx scopeEx ["AC-1", "zz"] evidenceNoEngineEx).2.2.2.2 rfl,
    ⟨_, _, postV1MetadataBatch_ok setEx scopeEx ["AC-1", "zz"] (by decide),
      postV1MetadataBatch_ok setEx scopeEx ["AC-1"] (by decide),
      (per_item_dispatch setEx scopeEx ["AC-1", "zz"] evidenceOpaEx).1 0 (by decide) _ _
        (postV1MetadataBatch_ok setEx scopeEx ["AC-1", "zz"] (by decide))
        (postV1MetadataBatch_ok setEx scopeEx ["AC-1"] (by decide))⟩⟩

end ComplyBeacon
